import Mathlib

/-!
Shallow embedding of the PCLC chatbot core (src/app.py) and verification of
the specification claims about it.

The embedding models:
* the language-detection heuristic of `main` (lines 250-262),
* the section-lookup query routing regex of `main` (line 264),
* the section-locator pattern of `get_law_details` (lines 102-113),
* the prompt construction and fallback logic of `get_law_details` and
  `analyze_case`,
* the list-marker normalisation of `display_urdu_rtl_streamlit` (lines 41-52).

Python strings are modelled as Lean `String` (lists of Unicode scalar values,
matching Python's code-point view of `str`).  The external generative model
(`model.generate_content`) is modelled as an injected oracle of type
`String → Except String String`: `.ok t` is a reply whose `response.text` is
`t`, `.error e` is a raised exception whose message is `e`.  Functions that
call the oracle additionally return the list of prompts they sent, so that
"the model was not called" is expressible as an empty call log.

Both regular expressions in the source contain the character U+061F (ARABIC
QUESTION MARK, `؟`) where the ASCII `?` quantifier appears to have been
intended; Python treats U+061F as an ordinary literal character.  The
embedding reproduces the source faithfully, i.e. with `؟` as a literal.
-/

/-- Python `str.isspace` / regex `\s` (Unicode): modelled over the ASCII
whitespace characters plus the standard Unicode whitespace code points. -/
def pyIsSpace (c : Char) : Bool :=
  c == ' ' || c == '\t' || c == '\n' || c == '\r' || c == '\x0b' || c == '\x0c' ||
  c == '\x1c' || c == '\x1d' || c == '\x1e' || c == '\x1f' || c == '\x85' || c == '\xa0' ||
  c == ' ' || (decide (0x2000 ≤ c.toNat) && decide (c.toNat ≤ 0x200A)) ||
  c == ' ' || c == ' ' || c == ' ' || c == ' ' || c == '　'

/-- Python `str.isascii`, per character: code point below 128. -/
def pyIsAscii (c : Char) : Bool := decide (c.toNat < 128)

/-- ASCII letter (A-Z, a-z). -/
def isAsciiLetter (c : Char) : Bool :=
  (decide (65 ≤ c.toNat) && decide (c.toNat ≤ 90)) ||
  (decide (97 ≤ c.toNat) && decide (c.toNat ≤ 122))

/-- Letters of the Unicode Arabic block (the script of the Urdu text in this
program).  Modelled subset of Unicode `Alphabetic` used for the claims about
Arabic-script input. -/
def isArabicLetter (c : Char) : Bool :=
  (decide (0x620 ≤ c.toNat) && decide (c.toNat ≤ 0x64A)) ||
  (decide (0x66E ≤ c.toNat) && decide (c.toNat ≤ 0x6D3)) ||
  c == 'ە' ||
  (decide (0x6E5 ≤ c.toNat) && decide (c.toNat ≤ 0x6E6)) ||
  (decide (0x6EE ≤ c.toNat) && decide (c.toNat ≤ 0x6EF)) ||
  (decide (0x6FA ≤ c.toNat) && decide (c.toNat ≤ 0x6FF))

/-- Python `str.isalpha`, per character: modelled as ASCII letters together
with Arabic-block letters (the only alphabetic characters the claims need;
Arabic letters are alphabetic and not ASCII). -/
def pythonIsAlpha (c : Char) : Bool := isAsciiLetter c || isArabicLetter c

/-- Python `str.lower`, per character: modelled on ASCII (A-Z mapped down,
everything else unchanged; Arabic script is uncased). -/
def pyLowerChar (c : Char) : Char :=
  if 65 ≤ c.toNat ∧ c.toNat ≤ 90 then Char.ofNat (c.toNat + 32) else c

/-- Python `str.lower` on a whole string. -/
def pyLowerString (s : String) : String := String.mk (s.data.map pyLowerChar)

/-- Does `hay` start with `needle` (exact character comparison)? -/
def startsWithChars : List Char → List Char → Bool
  | _, [] => true
  | [], _ :: _ => false
  | c :: s, d :: t => c == d && startsWithChars s t

/-- Python's substring test `needle in hay`. -/
def containsChars : List Char → List Char → Bool
  | [], needle => needle.isEmpty
  | hay@(_ :: rest), needle => startsWithChars hay needle || containsChars rest needle

/-- Python's substring test on `String`s. -/
def containsB (hay needle : String) : Bool := containsChars hay.data needle.data

/-- Does `s` begin with `p` (exact)? -/
def beginsWith (s p : String) : Bool := startsWithChars s.data p.data

/-- Python `str.strip()`: drop whitespace from both ends. -/
def pyStripChars (l : List Char) : List Char :=
  ((l.dropWhile pyIsSpace).reverse.dropWhile pyIsSpace).reverse

/-- Python `str.strip()` on `String`. -/
def pyStrip (s : String) : String := String.mk (pyStripChars s.data)

/-- The three legal language tags of the program: `'ur'`, `'en'`, `'ro'`. -/
inductive Lang where
  | ur
  | en
  | ro
deriving DecidableEq, Repr

/-- `lang_map_full` of `get_law_details` / `analyze_case`. -/
def langFull : Lang → String
  | .en => "English"
  | .ur => "Urdu"
  | .ro => "Roman Urdu"

/-- The language-detection heuristic of `main` (src/app.py lines 250-262).
`response_lang` starts as `'ur'` and is reassigned by the first matching
branch; the Python condition of the first branch is
`"what is" in lower or "section" in lower or
 "law" in lower and "urdu" not in lower and "roman" not in lower`
(Python `and` binds tighter than `or`, so the two negations attach to the
`"law"` conjunct only). -/
def detectLang (user_input : String) : Lang :=
  let lower := pyLowerString user_input
  if containsB lower "what is" || containsB lower "section" ||
     (containsB lower "law" && !(containsB lower "urdu") && !(containsB lower "roman")) then
    Lang.en
  else if user_input.data.any pythonIsAlpha && !(user_input.data.any pyIsAscii) then
    Lang.ur
  else if user_input.data.any pythonIsAlpha &&
     (containsB lower "kya" || containsB lower "kiya" || containsB lower "kaise" ||
      containsB lower "mein" || containsB lower "mujhe" || containsB lower "batao" ||
      containsB lower "lagte" || containsB lower "hogaya") then
    Lang.ro
  else
    Lang.ur

/-- The two law codes. -/
inductive LawCode where
  | PPC
  | CrPC
deriving DecidableEq, Repr

/-- Regex `\w` (word character): modelled as alphabetic (ASCII or Arabic),
ASCII digit, or underscore. -/
def isWordChar (c : Char) : Bool := pythonIsAlpha c || c.isDigit || c == '_'

/-- Case-insensitive literal match: consume `lit` from the front of `s`
(per-character ASCII lowercasing, as under `re.IGNORECASE`), returning the
remainder on success. -/
def dropLitCI : List Char → List Char → Option (List Char)
  | s, [] => some s
  | [], _ :: _ => none
  | c :: s, d :: t => if pyLowerChar c == pyLowerChar d then dropLitCI s t else none

/-- One attempt of the router regex `\b(PPC|CrPC)؟\s*(\d+)\b`
(src/app.py line 264, `re.IGNORECASE`) at a fixed position, after the
leading `\b` has already been checked.  The `؟` is the literal U+061F that
appears in the source where the `?` quantifier seems intended, so the
pattern is: the alternation `(PPC|CrPC)`, then the literal `؟`, then `\s*`,
then `(\d+)` (greedy), then `\b`.  Backtracking collapses: digits are not
whitespace, so `\s*` takes the maximal whitespace run; shortening the
greedy `\d+` run only moves the trailing `\b` between two digits, which
cannot be a boundary, so the maximal digit run is the only candidate. -/
def routerTryAt (l : List Char) : Option (LawCode × String) :=
  let tryTail (code : LawCode) (rest : List Char) : Option (LawCode × String) :=
    match rest with
    | '؟' :: r1 =>
      let r2 := r1.dropWhile pyIsSpace
      let ds := r2.takeWhile Char.isDigit
      if ds.isEmpty then none
      else
        match r2.drop ds.length with
        | [] => some (code, String.mk ds)
        | c :: _ => if isWordChar c then none else some (code, String.mk ds)
    | _ => none
  match dropLitCI l "PPC".data with
  | some rest => tryTail LawCode.PPC rest
  | none =>
    match dropLitCI l "CrPC".data with
    | some rest => tryTail LawCode.CrPC rest
    | none => none

/-- `re.search`: scan left to right; `prevIsWord` records whether the
character before the current position is a word character, so that the
leading `\b` holds exactly when it is false (the first matched character,
`P` or `C`, is always a word character). -/
def routerSearch : List Char → Bool → Option (LawCode × String)
  | l, prevIsWord =>
    match (if prevIsWord then none else routerTryAt l) with
    | some r => some r
    | none =>
      match l with
      | [] => none
      | c :: rest => routerSearch rest (isWordChar c)

/-- The Query Router: `re.search(r'\b(PPC|CrPC)؟\s*(\d+)\b', q, re.IGNORECASE)`
combined with the law-code selection of `main` (`law_prefix.lower() == 'crpc'`
chooses CrPC, anything else defaults to PPC).  Returns the Section Reference,
or `none` when the query is routed to case analysis. -/
def routeQuery (q : String) : Option (LawCode × String) :=
  routerSearch q.data false

/-!
A small backtracking regular-expression engine, sufficient for the
section-locator pattern of `get_law_details`.  `rxRun` follows Python `re`
matching order: alternation prefers the left branch, `star` is greedy
(longest iteration count tried first, backing off on failure), `look` is a
zero-width lookahead, `eos` is `$`.  String literals match
case-insensitively, as the whole pattern is compiled with `re.IGNORECASE`.
`fuel` bounds the recursion depth; all uses in this file evaluate the
engine only on concrete inputs, with ample fuel.
-/

/-- Regular-expression abstract syntax. -/
inductive Rx where
  | str : String → Rx
  | cls : (Char → Bool) → Rx
  | seq : Rx → Rx → Rx
  | alt : Rx → Rx → Rx
  | star : Rx → Rx
  | look : Rx → Rx
  | eos : Rx

/-- Backtracking matcher in continuation-passing style: try to match `r` at
the front of `s`, calling `k` on the remainder; the first success in
Python's preference order wins. -/
def rxRun (fuel : Nat) (r : Rx) (s : List Char) (k : List Char → Option (List Char)) :
    Option (List Char) :=
  match fuel with
  | 0 => none
  | fuel + 1 =>
    match r with
    | .str t =>
      match dropLitCI s t.data with
      | some rest => k rest
      | none => none
    | .cls p =>
      match s with
      | [] => none
      | c :: rest => if p c then k rest else none
    | .seq a b => rxRun fuel a s (fun s2 => rxRun fuel b s2 k)
    | .alt a b =>
      match rxRun fuel a s k with
      | some r => some r
      | none => rxRun fuel b s k
    | .star a =>
      match rxRun fuel a s
          (fun s2 => if s2.length < s.length then rxRun fuel (.star a) s2 k else none) with
      | some r => some r
      | none => k s
    | .look a =>
      match rxRun fuel a s some with
      | some _ => k s
      | none => none
    | .eos =>
      match s with
      | [] => k []
      | _ :: _ => none

/-- `re.search`: try the pattern at each position, leftmost first; on
success return the characters of `group(0)` (the matched span). -/
def rxSearch (fuel : Nat) (r : Rx) : List Char → Option (List Char)
  | [] =>
    match rxRun fuel r [] some with
    | some _ => some []
    | none => none
  | c :: rest =>
    match rxRun fuel r (c :: rest) some with
    | some leftover => some ((c :: rest).take ((c :: rest).length - leftover.length))
    | none => rxSearch fuel r rest

/-- The non-capturing synonym group
`(?:Section|SECTION|Sec\.؟|S\.|Dafaa|دفعہ)` of the section-locator pattern
(src/app.py lines 104-105).  Note that in `Sec\.؟` the `؟` is the literal
U+061F, part of the alternative's text. -/
def sectionMarkerRx : Rx :=
  .alt (.str "Section") (.alt (.str "SECTION") (.alt (.str "Sec.؟")
    (.alt (.str "S.") (.alt (.str "Dafaa") (.str "دفعہ")))))

/-- `\d+` (modelled over ASCII digits). -/
def digitsRx : Rx := .seq (.cls Char.isDigit) (.star (.cls Char.isDigit))

/-- The section-locator pattern of `get_law_details` (src/app.py lines
102-107), compiled with `re.IGNORECASE`:

`(?:Section|SECTION|Sec\.؟|S\.|Dafaa|دفعہ)؟\s*` + `re.escape(section_number)`
  + `[\.\s:-]*[\s\S]*؟(?=(?:Section|SECTION|Sec\.؟|S\.|Dafaa|دفعہ)؟\s*\d+|$)`

Each `؟` outside the group alternatives is the literal U+061F character
(where the `?` quantifier appears to have been intended), so the group is
mandatory and must be followed by a literal `؟`, and the greedy `[\s\S]*`
must be followed by a literal `؟` before the lookahead.  The character
class `[\.\s:-]` is dot, whitespace, colon, or a literal dash.
`re.escape` makes the section number a literal. -/
def sectionPattern (section_number : String) : Rx :=
  .seq sectionMarkerRx (.seq (.str "؟") (.seq (.star (.cls pyIsSpace))
    (.seq (.str section_number)
      (.seq (.star (.cls (fun c => c == '.' || pyIsSpace c || c == ':' || c == '-')))
        (.seq (.star (.cls (fun _ => true)))
          (.seq (.str "؟")
            (.look (.alt
              (.seq sectionMarkerRx (.seq (.str "؟")
                (.seq (.star (.cls pyIsSpace)) digitsRx)))
              .eos))))))))

/-- The Section Locator (src/app.py lines 102-113): search the corpus with
`sectionPattern`; on a match keep `match.group(0)` truncated to 2000
characters, otherwise the empty string. -/
def getSectionContent (section_number law_text : String) : String :=
  match rxSearch (4 * law_text.length + 400) (sectionPattern section_number) law_text.data with
  | some m => String.mk (m.take 2000)
  | none => ""

/-- An apostrophe, as a string (used inside prompt text). -/
def apos : String := String.mk ['\x27']

/-- The fixed "not available" fallback of `get_law_details` for an empty
corpus (src/app.py line 94): Urdu for `'ur'`, English otherwise. -/
def noLawTextMsg (lang : Lang) : String :=
  if lang = Lang.ur then "معذرت، متعلقہ قانونی متن دستیاب نہیں ہے۔"
  else "Sorry, relevant legal text is not available."

/-- The fixed "not available" fallback of `analyze_case` for an empty corpus
(src/app.py line 166). -/
def noAnalysisTextMsg (lang : Lang) : String :=
  if lang = Lang.ur then "معذرت، قانونی متن دستیاب نہیں ہے کیس کے تجزیے کے لیے۔"
  else "Sorry, legal text is not available for case analysis."

/-- The fixed "no information" / fallback message of `get_law_details`
(src/app.py lines 123 and 154). -/
def unknownMsg (lang : Lang) : String :=
  if lang = Lang.ur then "اس کی تفصیل میرے پاس اس وقت موجود نہیں ہے۔"
  else "I do not have details for this section at the moment."

/-- The backend-error message of both operations (src/app.py lines 158 and
198), carrying the underlying error description `e`. -/
def apiErrorMsg (lang : Lang) (e : String) : String :=
  if lang = Lang.ur then "جیمنی API سے جواب حاصل کرنے میں خرابی: " ++ e
  else "Error getting response from Gemini API: " ++ e

/-- The instruction prompt of `get_law_details` (src/app.py lines 115-147);
the f-string interpolations become concatenation. -/
def detailPrompt (section_number section_content : String) (lang : Lang) : String :=
  "\n    You are a legal assistant specializing in Pakistan Penal Code (PPC) and Code of Criminal Procedure (CrPC).\n    A user is asking for details about Section "
  ++ section_number
  ++ ".\n\n    Task:\n    - If law text is provided below, extract information from it.\n    - If law text is empty, search from your own knowledge/resources and provide accurate details.\n    - If still no information is available, clearly respond with:\n      \""
  ++ unknownMsg lang
  ++ "\"\n\n    Strictly provide the answer ONLY in the following format:\n    دفعہ نمبر (Section Number)\n    جرم (Offence)\n    اردو عنوان (Urdu Title)\n    تفصیل (Tafseel)\n    زیادہ سے زیادہ سزا (Maximum Saza)\n    کم سے کم سزا (Minimum Saza)\n    ضمانت (Bailable / Non-bailable)\n    قابل گرفتاری (Cognizable / Non-cognizable)\n    کن عدالت میں سماعت ہوگی (Triable by)\n    مثال (Example)\n    کیا پولیس بغیر وارنٹ گرفتار کر سکتی ہے؟\n    وارنٹ یا سمن (Warrant or Summons)\n    کیا راضی نامہ ممکن ہے؟ (Compoundable or Not)\n    سزا (Punishment)\n    کس عدالت میں مقدمہ چلے گا؟ (Court by Which Triable)\n    Suggestions (کسے بچا جا سکتا ہے)\n\n    Provide the response in "
  ++ langFull lang
  ++ " only.\n\n    Law Text (if available):\n    "
  ++ section_content
  ++ "\n    "

/-- The fixed disclaimer sentence that the case-analysis prompt instructs
the model to open its reply with (src/app.py line 188), verbatim. -/
def analysisDisclaimer : String :=
  "نوٹ: میں ایک مصنوعی ذہانت پر مبنی ماڈل ہوں اور آپ کو قانونی مشورہ نہیں دے سکتا۔ فراہم کردہ معلومات صرف عمومی آگاہی کے لیے ہیں۔ کسی بھی حقیقی قانونی معاملے کے لیے، یہ انتہائی ضروری ہے کہ آپ فوراً ایک مستند وکیل سے رابطہ کریں جو آپ کے کیس کا تفصیلی جائزہ لے کر درست قانونی رہنمائی فراہم کر سکے۔"

/-- The instruction prompt of `analyze_case` (src/app.py lines 174-192);
the corpora are truncated to 7000 characters, and the prompt instructs the
model to start its response with `analysisDisclaimer` (reproduced verbatim,
between escaped quotes).  The top-level shape is
`pre ++ (analysisDisclaimer ++ post)`. -/
def analyzePrompt (case_description ppc_text crpc_text : String) (lang : Lang) : String :=
  ("\n    You are a legal assistant. Analyze the following case scenario and identify the most relevant sections from the Pakistan Penal Code (PPC) and Code of Criminal Procedure (CrPC).\n    Explain why each section is relevant and then provide a summary of the potential charges.\n    Also, include general suggestions on how one might be legally defended, clearly stating it"
   ++ apos
   ++ "s not legal advice.\n\n    Case Scenario:\n    \""
   ++ case_description
   ++ "\"\n\n    Relevant Sections (from PPC and CrPC texts provided, if needed, limit text to avoid exceeding token limits):\n    PPC Text: "
   ++ ppc_text.take 7000
   ++ " # Adjusted limit\n    CrPC Text: "
   ++ crpc_text.take 7000
   ++ " # Adjusted limit\n\n    Provide the output in "
   ++ langFull lang
   ++ " in a clear, conversational manner.\n    Start the response with a clear disclaimer in the requested language:\n    \"")
  ++ (analysisDisclaimer
   ++ "\"\n    (Or its English/Roman Urdu equivalent)\n\n    Then, after the disclaimer, provide the analysis and suggestions.\n    ")

/-- The Section Detail operation `get_law_details` (src/app.py lines
88-158).  `model` is the injected generative-model oracle; the second
component of the result is the list of prompts sent to it (empty when the
model is never called).  The truthiness test `if not law_text` is the
empty-string test; the `try`/`except` around the model call becomes the
`match` on the oracle's `Except` result. -/
def get_law_details (model : String → Except String String)
    (section_number law_text : String) (lang : Lang) : String × List String :=
  if law_text = "" then (noLawTextMsg lang, [])
  else
    let section_content := getSectionContent section_number law_text
    let prompt := detailPrompt section_number section_content lang
    match model prompt with
    | Except.ok t =>
      let answer := pyStrip t
      if answer = "" ∨ (containsB answer "نامعلوم" = true ∧ section_content = "") then
        (unknownMsg lang, [prompt])
      else
        (answer, [prompt])
    | Except.error e => (apiErrorMsg lang e, [prompt])

/-- The Case Analysis operation `analyze_case` (src/app.py lines 160-198).
Returns the model's reply text as-is on success (no fallback substitution),
the fixed message when a corpus is empty (no model call), and the
backend-error message when the call fails. -/
def analyze_case (model : String → Except String String)
    (case_description ppc_text crpc_text : String) (lang : Lang) : String × List String :=
  if ppc_text = "" ∨ crpc_text = "" then (noAnalysisTextMsg lang, [])
  else
    let prompt := analyzePrompt case_description ppc_text crpc_text lang
    match model prompt with
    | Except.ok t => (t, [prompt])
    | Except.error e => (apiErrorMsg lang e, [prompt])

/-- The character class `[-*+•]` of `list_item_pattern`
(src/app.py line 43). -/
def isListMarker (c : Char) : Bool := c == '-' || c == '*' || c == '+' || c == '•'

/-- First alternative `^\s*[-*+•]` of `list_item_pattern`, applicable only
at the start of the string (the `^` anchor): skip whitespace, then one
marker character; returns the remainder after the match.  Backtracking on
`\s*` collapses because marker characters are not whitespace. -/
def listMatch1 (l : List Char) : Option (List Char) :=
  match l.dropWhile pyIsSpace with
  | c :: r => if isListMarker c then some r else none
  | [] => none

/-- Second alternative `\s*\d+\.` of `list_item_pattern` (not anchored):
skip whitespace, then one or more digits, then a dot; returns the remainder
after the match.  Backtracking collapses because digits are not whitespace
and the dot is neither. -/
def listMatch2 (l : List Char) : Option (List Char) :=
  match l.dropWhile pyIsSpace with
  | c :: r =>
    if c.isDigit then
      match (c :: r).dropWhile Char.isDigit with
      | '.' :: r2 => some r2
      | _ => none
    else none
  | [] => none

/-- The scan of `list_item_pattern.sub('', s)` past position 0: the
`^`-anchored first alternative can no longer apply, so at each position try
the second alternative; delete its match, or copy one character.  Every
match consumes at least one character, so fuel equal to the length
suffices. -/
def listSubRest : Nat → List Char → List Char
  | 0, l => l
  | _ + 1, [] => []
  | fuel + 1, c :: rest =>
    match listMatch2 (c :: rest) with
    | some r => listSubRest fuel r
    | none => c :: listSubRest fuel rest

/-- `list_item_pattern.sub('', s)`: at position 0 both alternatives are
available (the first is tried first, as in Python); afterwards the scan
continues with `listSubRest`. -/
def listSub (l : List Char) : List Char :=
  match listMatch1 l with
  | some r => listSubRest l.length r
  | none =>
    match listMatch2 l with
    | some r => listSubRest l.length r
    | none =>
      match l with
      | [] => []
      | c :: rest => c :: listSubRest rest.length rest

/-- The per-line transformation of `display_urdu_rtl_streamlit`
(src/app.py lines 45-50): if `list_item_pattern.match(line.strip())`
succeeds, the line becomes `"• "` followed by
`list_item_pattern.sub('', line.strip())`; otherwise the line is kept
unchanged. -/
def processLine (line : String) : String :=
  let stripped := pyStripChars line.data
  if (listMatch1 stripped).isSome || (listMatch2 stripped).isSome then
    String.mk ('•' :: ' ' :: listSub stripped)
  else line

/-- The whole-text processing of `display_urdu_rtl_streamlit` (src/app.py
lines 41-52): split on newlines, transform each line, rejoin. -/
def displayProcessedText (text : String) : String :=
  String.intercalate "\n" ((text.split (fun c => c == '\n')).map processLine)

/-- Does some suffix of `l` start with a `\s*\d+\.` match?  (Used as a
hypothesis meaning: `list_item_pattern.sub` deletes nothing inside `l`.) -/
def hasNumDot : List Char → Bool
  | [] => false
  | c :: rest => (listMatch2 (c :: rest)).isSome || hasNumDot rest

/-!
## Claim theorems
-/

/-- C1: evaluation of the Query Router at the claim's inputs.  The claim
says the law-code token is optional (defaulting to PPC) and that
`PPC 302` / `302` are routed to a Section Reference; in fact the regex
`\b(PPC|CrPC)؟\s*(\d+)\b` contains a literal U+061F `؟` where the `?`
quantifier was intended, so the law code is mandatory and must be followed
by a literal `؟`: both `PPC 302` and `302` return `none` (and are routed to
case analysis), while the unintended form `PPC؟ 302` matches. -/
theorem c1_router_literal_qmark_eval :
    routeQuery "PPC 302" = none ∧ routeQuery "302" = none ∧
    routeQuery "PPC؟ 302" = some (LawCode.PPC, "302") := by
  refine ⟨by decide, by decide, by decide⟩

/-- C2: evaluation of the Section Locator at the claim's input.  The claim
says the corpus `"Section 302 ... Section 303"` with request `"302"` yields
the text between the two markers; in fact the pattern requires the literal
U+061F `؟` right after the synonym group and again before the lookahead
(the `?` quantifiers were typed as `؟`), so the search finds no match in a
`؟`-free corpus and the excerpt is the empty string.  The second conjunct
shows the unintended form the pattern does accept. -/
theorem c2_locator_literal_qmark_eval :
    getSectionContent "302"
      "Section 302 Whoever commits murder shall be punished. Section 303 Theft." = ""
    ∧ getSectionContent "302" "Section؟302 text here ؟" = "Section؟302 text here ؟" := by
  refine ⟨by decide, by decide⟩

/-- C3 counterexample: the per-line transformation maps `"- foo"` to
`"•  foo"` (bullet, space, then the sub-result, which keeps the space that
followed the marker), not to `"• foo"` as claimed. -/
theorem c3_counterexample : processLine "- foo" = "•  foo" ∧ processLine "- foo" ≠ "• foo" := by
  refine ⟨by decide, by decide⟩

/-- C3 (amended): line-by-line processing: `"- foo"` becomes `"•  foo"`,
`"3. bar"` becomes `"•  bar"` (the marker is deleted but the following
space is kept, and `"• "` is prefixed), and any line whose stripped form
matches neither alternative of `list_item_pattern` is left unchanged. -/
theorem c3_line_normalization :
    processLine "- foo" = "•  foo" ∧ processLine "3. bar" = "•  bar" ∧
    ∀ line : String, (listMatch1 (pyStripChars line.data)).isSome = false →
      (listMatch2 (pyStripChars line.data)).isSome = false → processLine line = line := by
  refine ⟨by decide, by decide, ?_⟩
  intro line h1 h2
  simp [processLine, h1, h2]

/-- C3 witness: a line matching neither alternative is unchanged. -/
theorem c3_line_normalization_witness : processLine "plain text" = "plain text" :=
  c3_line_normalization.2.2 "plain text" (by decide) (by decide)

/-- C5 counterexample: with an oracle replying `"OK"`, the Case Analysis
operation returns `"OK"`, which does not begin with the fixed disclaimer
sentence: the code only asks for the disclaimer in the prompt and never
checks or prepends it. -/
theorem c5_counterexample :
    (analyze_case (fun _ => Except.ok "OK") "case" "ppc text" "crpc text" Lang.en).1 = "OK"
    ∧ beginsWith "OK" analysisDisclaimer = false := by
  refine ⟨by decide, by decide⟩

/-- C5 (amended): for non-empty corpora, the prompt built by Case Analysis
contains the fixed disclaimer sentence verbatim (with the instruction to
start the reply with it), and the operation returns the model's reply
unchanged — so the reply begins with the disclaimer only if the model
complies. -/
theorem c5_prompt_contains_disclaimer (case_description ppc_text crpc_text : String)
    (lang : Lang) (r : String) (hp : ppc_text ≠ "") (hc : crpc_text ≠ "") :
    (analyze_case (fun _ => Except.ok r) case_description ppc_text crpc_text lang).1 = r
    ∧ ∃ pre post,
        analyzePrompt case_description ppc_text crpc_text lang =
          pre ++ (analysisDisclaimer ++ post) := by
  constructor
  · unfold analyze_case
    rw [if_neg (fun h => h.elim hp hc)]
  · exact ⟨_, _, rfl⟩

/-- C5 witness. -/
theorem c5_prompt_contains_disclaimer_witness :
    (analyze_case (fun _ => Except.ok "OK") "case" "p" "c" Lang.ur).1 = "OK"
    ∧ ∃ pre post,
        analyzePrompt "case" "p" "c" Lang.ur = pre ++ (analysisDisclaimer ++ post) :=
  c5_prompt_contains_disclaimer "case" "p" "c" Lang.ur "OK" (by decide) (by decide)

/-- C6: the Section Detail operation on an empty corpus short-circuits to
the fixed fallback of line 94 (Urdu for `'ur'`, the English string for
`'en'` and `'ro'`) and sends no prompt to the model, for every oracle,
section number and language tag. -/
theorem c6_empty_corpus_short_circuit (model : String → Except String String)
    (section_number : String) (lang : Lang) :
    get_law_details model section_number "" lang =
      ((if lang = Lang.ur then "معذرت، متعلقہ قانونی متن دستیاب نہیں ہے۔"
        else "Sorry, relevant legal text is not available."), ([] : List String)) := by
  unfold get_law_details noLawTextMsg
  rw [if_pos rfl]

/-- C7 counterexample: the claim says a reply that passes the checks is
returned unchanged; in fact the operation returns the stripped reply
(`response.text.strip()`): the reply `" hello "` comes back as `"hello"`. -/
theorem c7_counterexample :
    (get_law_details (fun _ => Except.ok " hello ") "302" "law text" Lang.en).1 = "hello"
    ∧ ("hello" : String) ≠ " hello " := by
  refine ⟨by decide, by decide⟩

/-- C7 (amended): for a non-empty corpus, if the stripped reply is empty,
or it contains the marker `"نامعلوم"` while the located excerpt was empty,
the operation returns the fixed fallback in the target language; otherwise
it returns the stripped reply. -/
theorem c7_reply_postprocessing (reply section_number law_text : String) (lang : Lang)
    (hlaw : law_text ≠ "") :
    ((pyStrip reply = "" ∨ (containsB (pyStrip reply) "نامعلوم" = true ∧
        getSectionContent section_number law_text = "")) →
      (get_law_details (fun _ => Except.ok reply) section_number law_text lang).1 =
        unknownMsg lang)
    ∧ (¬(pyStrip reply = "" ∨ (containsB (pyStrip reply) "نامعلوم" = true ∧
        getSectionContent section_number law_text = "")) →
      (get_law_details (fun _ => Except.ok reply) section_number law_text lang).1 =
        pyStrip reply) := by
  unfold get_law_details
  rw [if_neg hlaw]
  constructor
  · intro hcond
    dsimp only
    rw [if_pos hcond]
  · intro hcond
    dsimp only
    rw [if_neg hcond]

/-- C7 witness: an empty reply on a non-empty corpus yields the fallback. -/
theorem c7_reply_postprocessing_witness :
    (get_law_details (fun _ => Except.ok "") "302" "law text" Lang.en).1 =
      unknownMsg Lang.en :=
  (c7_reply_postprocessing "" "302" "law text" Lang.en (by decide)).1 (Or.inl rfl)

/-- C8: a failing model call is caught in both operations and converted to
the language-keyed error string carrying the underlying error description,
returned as the answer (the operations are total functions into `String`:
no fault propagates). -/
theorem c8_backend_error_to_string (e section_number law_text case_description
    ppc_text crpc_text : String) (lang : Lang)
    (hlaw : law_text ≠ "") (hp : ppc_text ≠ "") (hc : crpc_text ≠ "") :
    (get_law_details (fun _ => Except.error e) section_number law_text lang).1 =
      ((if lang = Lang.ur then "جیمنی API سے جواب حاصل کرنے میں خرابی: "
        else "Error getting response from Gemini API: ") ++ e)
    ∧ (analyze_case (fun _ => Except.error e) case_description ppc_text crpc_text lang).1 =
      ((if lang = Lang.ur then "جیمنی API سے جواب حاصل کرنے میں خرابی: "
        else "Error getting response from Gemini API: ") ++ e) := by
  constructor
  · unfold get_law_details
    rw [if_neg hlaw]
    unfold apiErrorMsg
    by_cases h : lang = Lang.ur <;> simp [h]
  · unfold analyze_case
    rw [if_neg (fun h => h.elim hp hc)]
    unfold apiErrorMsg
    by_cases h : lang = Lang.ur <;> simp [h]

/-- C8 witness. -/
theorem c8_backend_error_to_string_witness :
    (get_law_details (fun _ => Except.error "boom") "302" "law" Lang.en).1 =
      ((if Lang.en = Lang.ur then "جیمنی API سے جواب حاصل کرنے میں خرابی: "
        else "Error getting response from Gemini API: ") ++ "boom")
    ∧ (analyze_case (fun _ => Except.error "boom") "case" "p" "c" Lang.en).1 =
      ((if Lang.en = Lang.ur then "جیمنی API سے جواب حاصل کرنے میں خرابی: "
        else "Error getting response from Gemini API: ") ++ "boom") :=
  c8_backend_error_to_string "boom" "302" "law" "case" "p" "c" Lang.en
    (by decide) (by decide) (by decide)

/-- C10: any query whose lowercasing contains `"section"` is classified as
English, whatever else it contains: the negations in the first branch bind
only to the `"law"` conjunct, so the `"section"` test alone decides. -/
theorem c10_section_implies_english (q : String)
    (h : containsB (pyLowerString q) "section" = true) : detectLang q = Lang.en := by
  unfold detectLang
  simp [h]

/-- C10 witness: the query contains `"urdu"`, `"roman"` and Roman-Urdu
keywords, and is still classified as English. -/
theorem c10_section_implies_english_witness :
    detectLang "section 420 in roman urdu mein kya hai" = Lang.en :=
  c10_section_implies_english "section 420 in roman urdu mein kya hai" (by decide)

/-- All Arabic-block letters lie at or above code point 0x620. -/
theorem isArabicLetter_ge (c : Char) (h : isArabicLetter c = true) : 1568 ≤ c.toNat := by
  unfold isArabicLetter at h
  simp only [Bool.or_eq_true, Bool.and_eq_true, decide_eq_true_eq, beq_iff_eq] at h
  rcases h with ((((h | h) | h) | h) | h) | h
  · omega
  · omega
  · rw [h]; decide
  · omega
  · omega
  · omega

/-- ASCII lowercasing leaves non-ASCII characters unchanged. -/
theorem pyLowerChar_of_nonascii (c : Char) (h : 128 ≤ c.toNat) : pyLowerChar c = c := by
  unfold pyLowerChar
  rw [if_neg (by omega)]

/-- A needle whose first character is ASCII cannot occur in a haystack
containing no ASCII character. -/
theorem contains_false_of_ascii_head (hay : List Char)
    (hhay : ∀ c ∈ hay, pyIsAscii c = false) (d : Char) (r : List Char)
    (hd : pyIsAscii d = true) : containsChars hay (d :: r) = false := by
  induction hay with
  | nil => rfl
  | cons a t ih =>
    have ha : pyIsAscii a = false := hhay a (by simp)
    have hne : (a == d) = false := by
      cases hb : a == d
      · rfl
      · rw [beq_iff_eq.mp hb, hd] at ha
        exact ha
    show (startsWithChars (a :: t) (d :: r) || containsChars t (d :: r)) = false
    have h1 : startsWithChars (a :: t) (d :: r) = false := by
      show ((a == d) && startsWithChars t r) = false
      rw [hne]
      rfl
    rw [h1, ih (fun c hc => hhay c (by simp [hc]))]
    rfl

/-- C9: a query all of whose characters are Arabic-block letters (hence
alphabetic and non-ASCII) is classified as Urdu: the English branch cannot
fire because its ASCII-initial needles cannot occur in the lowered query,
and the Urdu branch's test (some alphabetic character, no ASCII character)
holds — and the empty query falls through to the default, which is also
Urdu. -/
theorem c9_arabic_script_urdu (q : String)
    (h : ∀ c ∈ q.data, isArabicLetter c = true) : detectLang q = Lang.ur := by
  have hna : ∀ c ∈ q.data, pyIsAscii c = false := by
    intro c hc
    have := isArabicLetter_ge c (h c hc)
    simp only [pyIsAscii, decide_eq_false_iff_not]
    omega
  have hlowna : ∀ c ∈ (pyLowerString q).data, pyIsAscii c = false := by
    intro c hc
    simp only [pyLowerString, List.mem_map] at hc
    obtain ⟨d, hd, rfl⟩ := hc
    rw [pyLowerChar_of_nonascii d (by have := isArabicLetter_ge d (h d hd); omega)]
    exact hna d hd
  have hw : containsB (pyLowerString q) "what is" = false :=
    contains_false_of_ascii_head _ hlowna 'w' _ (by decide)
  have hs : containsB (pyLowerString q) "section" = false :=
    contains_false_of_ascii_head _ hlowna 's' _ (by decide)
  have hl : containsB (pyLowerString q) "law" = false :=
    contains_false_of_ascii_head _ hlowna 'l' _ (by decide)
  have hascii : q.data.any pyIsAscii = false := by
    rw [List.any_eq_false]
    intro c hc
    simp [hna c hc]
  cases hq : q.data with
  | nil =>
    have hq0 : q = "" := String.ext (by rw [hq])
    rw [hq0]
    decide
  | cons c rest =>
    have hal : pythonIsAlpha c = true := by
      have := h c (by rw [hq]; exact List.mem_cons_self c rest)
      simp [pythonIsAlpha, this]
    have hany : q.data.any pythonIsAlpha = true := by
      rw [hq]
      simp [hal]
    unfold detectLang
    simp [hw, hs, hl, hany, hascii]

/-- C9 witness: an all-Arabic query is classified as Urdu. -/
theorem c9_arabic_script_urdu_witness : detectLang "دفعہ" = Lang.ur :=
  c9_arabic_script_urdu "دفعہ" (by decide)

/-- A leading whitespace character is absorbed by the `\s*` of the second
alternative, so it does not change whether (or what) it matches. -/
theorem listMatch2_space_cons (c : Char) (l : List Char) (h : pyIsSpace c = true) :
    listMatch2 (c :: l) = listMatch2 l := by
  unfold listMatch2
  rw [List.dropWhile_cons]
  simp [h]

section ListSubLemmas

/- `listMatch1` and `listMatch2` are kept opaque while the equations of
`listSubRest` are derived and used; nothing here depends on their bodies. -/
attribute [local irreducible] listMatch2 listMatch1

/-- Substitution step: past position 0, when the second alternative fails
the current character is copied. -/
theorem listSubRest_step_copy (n : Nat) (c : Char) (rest : List Char)
    (h : listMatch2 (c :: rest) = none) :
    listSubRest (n + 1) (c :: rest) = c :: listSubRest n rest := by
  rw [listSubRest, h]

/-- On a string with no `\s*\d+\.` occurrence, the substitution scan
past position 0 copies every character. -/
theorem listSubRest_id (fuel : Nat) : ∀ l : List Char, l.length ≤ fuel →
    hasNumDot l = false → listSubRest fuel l = l := by
  induction fuel with
  | zero => intro l _ _; rfl
  | succ n ih =>
    intro l hl hnd
    cases l with
    | nil => rfl
    | cons c rest =>
      have hnd' : (listMatch2 (c :: rest)).isSome = false ∧ hasNumDot rest = false :=
        Bool.or_eq_false_iff.mp
          (show ((listMatch2 (c :: rest)).isSome || hasNumDot rest) = false from hnd)
      have h2 : listMatch2 (c :: rest) = none := by
        cases hx : listMatch2 (c :: rest)
        · rfl
        · rw [hx] at hnd'
          exact absurd hnd'.1 (by simp)
      rw [listSubRest_step_copy n c rest h2,
        ih rest (by simp only [List.length_cons] at hl; omega) hnd'.2]

end ListSubLemmas

/-- A list with a non-whitespace head and a non-whitespace last element is
unchanged by `strip()`. -/
theorem pyStripChars_self (c : Char) (r : List Char) (hh : pyIsSpace c = false)
    (ht : pyIsSpace ((c :: r).getLastD ' ') = false) :
    pyStripChars (c :: r) = c :: r := by
  unfold pyStripChars
  rw [List.dropWhile_cons]
  simp only [hh, Bool.false_eq_true, if_false]
  cases hrev : (c :: r).reverse with
  | nil => exact absurd hrev (by simp)
  | cons d m =>
    have hlast : d = (c :: r).getLastD ' ' := by
      have h1 : (c :: r) = (d :: m).reverse := by rw [← hrev, List.reverse_reverse]
      rw [h1, List.reverse_cons]
      simp [List.getLastD_concat]
    have hd : pyIsSpace d = false := by rw [hlast]; exact ht
    rw [List.dropWhile_cons]
    simp only [hd, Bool.false_eq_true, if_false]
    rw [← hrev, List.reverse_reverse]

/-- C4 counterexample: applying the per-line transformation to the line
produced from `"- foo"` (namely `"•  foo"`) does not return it unchanged:
it yields `"•   foo"`. -/
theorem c4_counterexample : processLine (processLine "- foo") ≠ processLine "- foo" := by
  decide

/-- C4 (amended): the transformation is not idempotent.  A produced bullet
line has the form `"• " ++ t`; re-applying the transformation matches the
bullet `•` as a list marker again, strips it, and prefixes `"• "` once
more, so the line grows by one space after the bullet:
`processLine ("• " ++ t) = "•  " ++ t` (for `t` non-empty, with no
trailing whitespace and no digits-then-dot occurrence), which differs from
the input line. -/
theorem c4_not_idempotent (t : String) (hne : t.data ≠ [])
    (ht : pyIsSpace (t.data.getLastD ' ') = false)
    (hnd : hasNumDot t.data = false) :
    processLine ("• " ++ t) = "•  " ++ t ∧ processLine ("• " ++ t) ≠ "• " ++ t := by
  obtain ⟨td⟩ := t
  have harg : ("• " ++ String.mk td) = String.mk ('•' :: ' ' :: td) :=
    String.ext (by rw [String.data_append]; rfl)
  have hstrip : pyStripChars ('•' :: ' ' :: td) = '•' :: ' ' :: td := by
    apply pyStripChars_self '•' (' ' :: td) (by decide)
    rw [List.getLastD_cons, List.getLastD_cons]
    exact ht
  have hm1 : listMatch1 ('•' :: ' ' :: td) = some (' ' :: td) := by
    have h1 : pyIsSpace '•' = false := by decide
    have h2 : isListMarker '•' = true := by decide
    simp [listMatch1, List.dropWhile_cons, h1, h2]
  have hnd2 : hasNumDot (' ' :: td) = false := by
    cases htd : td with
    | nil => exact absurd htd hne
    | cons a r =>
      rw [htd] at hnd
      have hcomp : (listMatch2 (a :: r)).isSome = false ∧ hasNumDot r = false :=
        Bool.or_eq_false_iff.mp
          (show ((listMatch2 (a :: r)).isSome || hasNumDot r) = false from hnd)
      show ((listMatch2 (' ' :: a :: r)).isSome || hasNumDot (a :: r)) = false
      rw [listMatch2_space_cons ' ' (a :: r) (by decide), hcomp.1, hnd]
      rfl
  have hsub : listSub ('•' :: ' ' :: td) = ' ' :: td := by
    unfold listSub
    rw [hm1]
    exact listSubRest_id ('•' :: ' ' :: td).length (' ' :: td) (by simp) hnd2
  have hmain : processLine (String.mk ('•' :: ' ' :: td)) =
      String.mk ('•' :: ' ' :: ' ' :: td) := by
    show (if ((listMatch1 (pyStripChars ('•' :: ' ' :: td))).isSome ||
              (listMatch2 (pyStripChars ('•' :: ' ' :: td))).isSome) = true then
            String.mk ('•' :: ' ' :: listSub (pyStripChars ('•' :: ' ' :: td)))
          else String.mk ('•' :: ' ' :: td)) = String.mk ('•' :: ' ' :: ' ' :: td)
    rw [hstrip, hm1]
    have hcond : ((some (' ' :: td)).isSome || (listMatch2 ('•' :: ' ' :: td)).isSome) = true := by
      simp
    rw [if_pos hcond, hsub]
  constructor
  · rw [harg, hmain]
    exact String.ext (by rw [String.data_append]; rfl)
  · rw [harg, hmain]
    intro heq
    have hd : '•' :: ' ' :: ' ' :: td = '•' :: ' ' :: td := congrArg String.data heq
    have hlen := congrArg List.length hd
    simp at hlen

/-- C4 witness: the line `"•  foo"` (which is `processLine "- foo"`) maps
to `"•   foo"`, not to itself. -/
theorem c4_not_idempotent_witness :
    processLine ("• " ++ " foo") = "•  " ++ " foo"
    ∧ processLine ("• " ++ " foo") ≠ "• " ++ " foo" :=
  c4_not_idempotent " foo" (by decide) (by decide) (by decide)
